import Mathlib

/-!
# csibroker: the broker state manager

A shallow embedding of `src/csibroker/csibroker.go`.

* Go maps are reference values that may be nil; `GoMap V` keeps the nil map
  apart from the empty initialised map, because `reflect.DeepEqual`, a lookup
  and an assignment all tell them apart.
* The collaborators the broker is constructed with (the volume provisioner,
  the `ioutil` shim, `encoding/json`, `filepath.Join`) are not code of this
  package.  They are the fields of `Env`; the general theorems below hold for
  every `Env`, and the closed ones evaluate the code on the test doubles
  defined before them.  The outside world the collaborators act on (remote
  volumes, files) is a state of an arbitrary type `σ` that is passed along.
* `brokerapi.ProvisionDetails`, `brokerapi.BindDetails` and `semver.Version`
  are type parameters `PD`, `BD`, `Ver`.  Equality on `PD` stands for
  `reflect.DeepEqual`.
* The logger and the mutex have no effect on the values computed and are left
  out; calls are executed one after the other.
-/

namespace CsiBroker

/-- Content of a file: a Go byte slice. -/
abbrev Bytes := List UInt8

/-- A Go map with string keys: `none` is the nil map, `some f` an initialised
map whose entry for `k` is `f k`. -/
abbrev GoMap (V : Type) := Option (String → Option V)

namespace GoMap

/-- The map literal `map[string]V{}`: initialised, without entries. -/
def make {V : Type} : GoMap V := some (fun _ => none)

/-- The lookup `v, ok := m[k]`; a nil map has no entries. -/
def lookup {V : Type} (m : GoMap V) (k : String) : Option V :=
  match m with
  | none => none
  | some f => f k

/-- Whether `k` is a key of `m`. -/
def hasKey {V : Type} (m : GoMap V) (k : String) : Bool :=
  (lookup m k).isSome

/-- The assignment `m[k] = v`; on a nil map the Go runtime panics, which is
the result `none`. -/
def assign {V : Type} (m : GoMap V) (k : String) (v : V) : Option (GoMap V) :=
  match m with
  | none => none
  | some f => some (some (fun j => if j = k then some v else f j))

end GoMap

/-- Go error values the broker returns or receives. -/
inductive GoError where
  | ErrInstanceAlreadyExists
  | errorString (s : String)
  deriving DecidableEq, Repr

/-- The call `errors.New(text)`. -/
def errorsNew (text : String) : GoError := GoError.errorString text

/-- The method `Error()`: the message of an error. -/
def GoError.Error : GoError → String
  | GoError.ErrInstanceAlreadyExists => "instance already exists"
  | GoError.errorString s => s

/-- What a Go function with results `(α, error)` does: it returns, or it
panics. -/
inductive Return (α : Type) where
  | returned (value : α) (err : Option GoError)
  | panicked (msg : String)
  deriving DecidableEq, Repr

/-- The struct `staticState`. -/
structure staticState where
  ServiceName : String
  ServiceId : String
  PlanName : String
  PlanId : String
  PlanDesc : String
  deriving DecidableEq, Repr

/-- The struct `dynamicState`. -/
structure dynamicState (PD BD : Type) where
  InstanceMap : GoMap PD
  BindingMap : GoMap BD

/-- The zero value `dynamicState{}`: both maps nil. -/
def dynamicState.zero {PD BD : Type} : dynamicState PD BD :=
  { InstanceMap := none, BindingMap := none }

/-- The value of the field `dynamic` in the literal of `New`: both maps
initialised and without entries. -/
def dynamicState.fresh {PD BD : Type} : dynamicState PD BD :=
  { InstanceMap := GoMap.make, BindingMap := GoMap.make }

/-- The struct `broker`, without its collaborators (see `Env`). -/
structure broker (PD BD Ver : Type) where
  dataDir : String
  specVersion : Ver
  static : staticState
  dynamic : dynamicState PD BD

/-- A value stored in the options of a create request. -/
inductive OptValue (Ver : Type) where
  | version (v : Ver)
  | text (s : String)
  deriving DecidableEq, Repr

/-- The struct `voldriver.CreateRequest`. -/
structure CreateRequest (Ver : Type) where
  Name : String
  Opts : List (String × OptValue Ver)
  deriving DecidableEq, Repr

/-- The struct `voldriver.ErrorResponse`. -/
structure ErrorResponse where
  Err : String
  deriving DecidableEq, Repr

/-- The struct `brokerapi.ProvisionedServiceSpec`. -/
structure ProvisionedServiceSpec where
  IsAsync : Bool := false
  DashboardURL : String := ""
  OperationData : String := ""
  deriving DecidableEq, Repr

/-- The struct `brokerapi.DeprovisionServiceSpec`. -/
structure DeprovisionServiceSpec where
  IsAsync : Bool := false
  OperationData : String := ""
  deriving DecidableEq, Repr

/-- The struct `brokerapi.Binding`, by the fields the package names. -/
structure Binding where
  Credentials : Option Unit := none
  VolumeMounts : List String := []
  deriving DecidableEq, Repr

/-- The constant `os.ModePerm`. -/
def ModePerm : Nat := 0o777

/-- The collaborators of a broker, acting on a world of type `σ`. -/
structure Env (PD BD Ver σ : Type) where
  /-- The method `provisioner.Create`. -/
  Create : CreateRequest Ver → σ → ErrorResponse × σ
  /-- The function `json.Marshal` at `dynamicState`. -/
  Marshal : dynamicState PD BD → Except GoError Bytes
  /-- The function `json.Unmarshal` into a `dynamicState` variable holding the second
  argument. -/
  Unmarshal : Bytes → dynamicState PD BD → Except GoError (dynamicState PD BD)
  /-- The method `ioutil.WriteFile`. -/
  WriteFile : String → Bytes → Nat → σ → Option GoError × σ
  /-- The method `ioutil.ReadFile`. -/
  ReadFile : String → σ → Except GoError Bytes
  /-- The function `filepath.Join` of two elements. -/
  Join : String → String → String

section Operations

variable {PD BD Ver σ : Type}

/-- The path both `serialize` and `restoreDynamicState` compute. -/
def stateFile (env : Env PD BD Ver σ) (b : broker PD BD Ver) : String :=
  env.Join b.dataDir (b.static.ServiceName ++ "-services.json")

/-- The method `serialize`: marshal the state and write it to the state file;
either failure is logged and nothing else happens. -/
def serialize (env : Env PD BD Ver σ) (b : broker PD BD Ver)
    (state : dynamicState PD BD) (w : σ) : σ :=
  match env.Marshal state with
  | Except.error _ => w
  | Except.ok stateData => (env.WriteFile (stateFile env b) stateData ModePerm w).2

/-- The method `restoreDynamicState`. -/
def restoreDynamicState (env : Env PD BD Ver σ) (b : broker PD BD Ver) (w : σ) :
    broker PD BD Ver :=
  match env.ReadFile (stateFile env b) w with
  | Except.error _ => b
  | Except.ok serviceData =>
    match env.Unmarshal serviceData dynamicState.zero with
    | Except.error _ => b
    | Except.ok parsed => { b with dynamic := parsed }

/-- The function `New`. -/
def New (env : Env PD BD Ver σ) (w : σ)
    (serviceName serviceId planName planId planDesc dataDir : String) (version : Ver) :
    broker PD BD Ver :=
  let theBroker : broker PD BD Ver :=
    { dataDir := dataDir
      specVersion := version
      static :=
        { ServiceName := serviceName
          ServiceId := serviceId
          PlanName := planName
          PlanId := planId
          PlanDesc := planDesc }
      dynamic := { InstanceMap := GoMap.make, BindingMap := GoMap.make } }
  restoreDynamicState env theBroker w

/-- The method `instanceConflicts`. -/
def instanceConflicts [DecidableEq PD] (b : broker PD BD Ver) (details : PD)
    (instanceID : String) : Bool :=
  match GoMap.lookup b.dynamic.InstanceMap instanceID with
  | some existing => if ¬ (details = existing) then true else false
  | none => false

/-- What a call of a broker method leaves behind: what it returned, the
broker, the world, and the create requests it sent to the provisioner. -/
structure Outcome (α PD BD Ver σ : Type) where
  ret : Return α
  b : broker PD BD Ver
  world : σ
  created : List (CreateRequest Ver)

/-- The request `Provision` sends to the provisioner. -/
def createRequest (b : broker PD BD Ver) (instanceID : String) : CreateRequest Ver :=
  { Name := instanceID
    Opts := [("version", OptValue.version b.specVersion),
             ("volume_capability", OptValue.text "mount")] }

/-- The statements of `Provision` after the three `defer` statements. -/
def provisionBody [DecidableEq PD] (env : Env PD BD Ver σ) (b : broker PD BD Ver) (w : σ)
    (instanceID : String) (details : PD) : Outcome ProvisionedServiceSpec PD BD Ver σ :=
  if instanceConflicts b details instanceID then
    { ret := Return.returned {} (some GoError.ErrInstanceAlreadyExists)
      b := b, world := w, created := [] }
  else
    let errResp := env.Create (createRequest b instanceID) w
    if errResp.1.Err ≠ "" then
      { ret := Return.returned {} (some (errorsNew errResp.1.Err))
        b := b, world := errResp.2, created := [createRequest b instanceID] }
    else
      match GoMap.assign b.dynamic.InstanceMap instanceID details with
      | none =>
        { ret := Return.panicked "assignment to entry in nil map"
          b := b, world := errResp.2, created := [createRequest b instanceID] }
      | some m =>
        { ret := Return.returned {} none
          b := { b with dynamic := { b.dynamic with InstanceMap := m } }
          world := errResp.2, created := [createRequest b instanceID] }

/-- The method `Provision`.  The deferred `serialize(b.dynamic)` runs on every
way out of the body, a panic included.  Its argument is a copy of the struct
taken at the `defer` statement; the copy shares the maps, and the body only
assigns into a map, so the state written is the state the body leaves. -/
def Provision [DecidableEq PD] (env : Env PD BD Ver σ) (b : broker PD BD Ver) (w : σ)
    (instanceID : String) (details : PD) (_asyncAllowed : Bool) :
    Outcome ProvisionedServiceSpec PD BD Ver σ :=
  let o := provisionBody env b w instanceID details
  { o with world := serialize env o.b o.b.dynamic o.world }

/-- The method `Deprovision`: every statement but the last is commented out. -/
def Deprovision (_env : Env PD BD Ver σ) (b : broker PD BD Ver) (w : σ)
    (_instanceID : String) (_asyncAllowed : Bool) :
    Outcome DeprovisionServiceSpec PD BD Ver σ :=
  { ret := Return.returned {} none, b := b, world := w, created := [] }

/-- The method `Bind`: every statement but the last is commented out. -/
def Bind (_env : Env PD BD Ver σ) (b : broker PD BD Ver) (w : σ)
    (_instanceID : String) (_bindingID : String) (_details : BD) :
    Outcome Binding PD BD Ver σ :=
  { ret := Return.returned {} none, b := b, world := w, created := [] }

/-- The method `Unbind`: every statement but the last is commented out.  Its
only result is the error. -/
def Unbind (_env : Env PD BD Ver σ) (b : broker PD BD Ver) (w : σ)
    (_instanceID : String) (_bindingID : String) :
    Outcome Unit PD BD Ver σ :=
  { ret := Return.returned () none, b := b, world := w, created := [] }

/-- The four operations a client can call. -/
inductive OpKind where
  | provision
  | deprovision
  | bind
  | unbind
  deriving DecidableEq, Repr

/-- A call of one of the four operations, with its arguments. -/
inductive Call (PD BD : Type) where
  | provision (instanceID : String) (details : PD) (asyncAllowed : Bool)
  | deprovision (instanceID : String) (asyncAllowed : Bool)
  | bind (instanceID : String) (bindingID : String) (details : BD)
  | unbind (instanceID : String) (bindingID : String)

/-- One entry of the history of a broker: the operation called, the
identifier it was called for (the instance identifier for provision and
deprovision, the binding identifier for bind and unbind), and whether the call
succeeded. -/
structure Event where
  op : OpKind
  id : String
  succeeded : Bool
  deriving DecidableEq, Repr

/-- A call succeeded when it returned with a nil error. -/
def Return.succeeded {α : Type} : Return α → Bool
  | Return.returned _ none => true
  | Return.returned _ (some _) => false
  | Return.panicked _ => false

/-- A broker with the world it acts on and the history of the calls made. -/
structure Run (PD BD Ver σ : Type) where
  b : broker PD BD Ver
  world : σ
  history : List Event

/-- One call on a running broker.  A panic ends the call, not the broker: the
deferred unlock has run and the next call finds the state the call left. -/
def step [DecidableEq PD] (env : Env PD BD Ver σ) (r : Run PD BD Ver σ) :
    Call PD BD → Run PD BD Ver σ
  | Call.provision instanceID details asyncAllowed =>
    let o := Provision env r.b r.world instanceID details asyncAllowed
    { b := o.b, world := o.world
      history := r.history ++ [{ op := OpKind.provision, id := instanceID,
                                 succeeded := o.ret.succeeded }] }
  | Call.deprovision instanceID asyncAllowed =>
    let o := Deprovision env r.b r.world instanceID asyncAllowed
    { b := o.b, world := o.world
      history := r.history ++ [{ op := OpKind.deprovision, id := instanceID,
                                 succeeded := o.ret.succeeded }] }
  | Call.bind instanceID bindingID details =>
    let o := Bind env r.b r.world instanceID bindingID details
    { b := o.b, world := o.world
      history := r.history ++ [{ op := OpKind.bind, id := bindingID,
                                 succeeded := o.ret.succeeded }] }
  | Call.unbind instanceID bindingID =>
    let o := Unbind env r.b r.world instanceID bindingID
    { b := o.b, world := o.world
      history := r.history ++ [{ op := OpKind.unbind, id := bindingID,
                                 succeeded := o.ret.succeeded }] }

/-- A finite sequence of calls, one after the other. -/
def run [DecidableEq PD] (env : Env PD BD Ver σ) (r : Run PD BD Ver σ) :
    List (Call PD BD) → Run PD BD Ver σ
  | [] => r
  | c :: cs => run env (step env r c) cs

/-- A broker that has just been constructed with the given dynamic state,
before any call. -/
def start (b : broker PD BD Ver) (w : σ) : Run PD BD Ver σ :=
  { b := b, world := w, history := [] }

end Operations

/-- Whether the event is a successful call of `op` for `id`. -/
def Event.isOk (op : OpKind) (id : String) (e : Event) : Bool :=
  decide (e.op = op) && decide (e.id = id) && e.succeeded

/-- The words of the specification: some successful call of `opening` for
`id` occurred in the history and no successful call of `closing` for `id`
occurred after it. -/
def liveInHistory (opening closing : OpKind) (id : String) : List Event → Bool
  | [] => false
  | e :: rest =>
    (e.isOk opening id && rest.all (fun later => !later.isOk closing id))
      || liveInHistory opening closing id rest

/-- The specification of `instances`: provisioned and not deprovisioned since. -/
def instanceLive (id : String) (history : List Event) : Bool :=
  liveInHistory OpKind.provision OpKind.deprovision id history

/-- The specification of `bindings`: bound and not unbound since. -/
def bindingLive (id : String) (history : List Event) : Bool :=
  liveInHistory OpKind.bind OpKind.unbind id history

/-! ## Test doubles

Concrete collaborators on which the definitions can be evaluated. -/

/-- A small request type for the examples. -/
structure SampleDetails where
  PlanID : String
  RawParameters : Bytes
  deriving DecidableEq, Repr

/-- The world of the examples: the files, by path. -/
abbrev SampleWorld := List (String × Bytes)

/-- The bytes of the document that is an object without members. -/
def emptyObjectDoc : Bytes := [0x7b, 0x7d]

/-- The bytes of the document `null`. -/
def nullDoc : Bytes := [0x6e, 0x75, 0x6c, 0x6c]

/-- A decoder that knows two documents only, the object without members and
`null`.  On both `encoding/json` sets no field of the variable it decodes
into and reports no error; every other document is refused here. -/
def unmarshalEmptyDocs {PD BD : Type} (data : Bytes) (target : dynamicState PD BD) :
    Except GoError (dynamicState PD BD) :=
  if data = emptyObjectDoc ∨ data = nullDoc then Except.ok target
  else Except.error (GoError.errorString "unexpected end of JSON input")

/-- A provisioner, a file shim and a codec with fixed answers: `Create`
answers `createErr`, `Marshal` answers `marshalled`, `WriteFile` stores the
file unless `writeErr` is an error, `ReadFile` looks the file up, and
`Unmarshal` is `unmarshal`. -/
def fakeEnv (createErr : String) (marshalled : Except GoError Bytes)
    (writeErr : Option GoError)
    (unmarshal : Bytes → dynamicState SampleDetails SampleDetails →
      Except GoError (dynamicState SampleDetails SampleDetails)) :
    Env SampleDetails SampleDetails Nat SampleWorld :=
  { Create := fun _ w => ({ Err := createErr }, w)
    Marshal := fun _ => marshalled
    Unmarshal := unmarshal
    WriteFile := fun path data _ w =>
      match writeErr with
      | some e => (some e, w)
      | none => (none, (path, data) :: w)
    ReadFile := fun path w =>
      match w.lookup path with
      | some data => Except.ok data
      | none => Except.error (GoError.errorString "no such file or directory")
    Join := fun dir file => dir ++ "/" ++ file }

/-- The environment of the examples in which everything works. -/
def okEnv : Env SampleDetails SampleDetails Nat SampleWorld :=
  fakeEnv "" (Except.ok emptyObjectDoc) none unmarshalEmptyDocs

/-- A request of the examples. -/
def oneGig : SampleDetails := { PlanID := "plan", RawParameters := [0x31] }

/-- Another request of the examples. -/
def twoGig : SampleDetails := { PlanID := "plan", RawParameters := [0x32] }

/-- A broker of the examples with the given dynamic state. -/
def sampleBroker (d : dynamicState SampleDetails SampleDetails) :
    broker SampleDetails SampleDetails Nat :=
  { dataDir := "/data"
    specVersion := 1
    static := { ServiceName := "csi", ServiceId := "sid", PlanName := "free",
                PlanId := "pid", PlanDesc := "a plan" }
    dynamic := d }

/-- A dynamic state in which `vol-1` is provisioned with `oneGig`. -/
def oneInstance : dynamicState SampleDetails SampleDetails :=
  { InstanceMap := some (fun k => if k = "vol-1" then some oneGig else none)
    BindingMap := GoMap.make }

/-! ## Lemmas on maps and on the parts of `Provision` -/

section Lemmas

variable {PD BD Ver σ : Type}

/-- The conflict predicate: true exactly when the key is present with a value
different from the candidate. -/
theorem instanceConflicts_iff [DecidableEq PD] (b : broker PD BD Ver) (details : PD)
    (instanceID : String) :
    instanceConflicts b details instanceID = true ↔
      ∃ existing, GoMap.lookup b.dynamic.InstanceMap instanceID = some existing ∧
        existing ≠ details := by
  unfold instanceConflicts
  cases h : GoMap.lookup b.dynamic.InstanceMap instanceID with
  | none => simp
  | some existing =>
    by_cases hd : details = existing
    · simp [hd]
    · have hd2 : ¬ existing = details := fun e => hd e.symm
      simp [hd, hd2]

/-- The deferred `serialize` changes the world only. -/
theorem Provision_ret [DecidableEq PD] (env : Env PD BD Ver σ) (b : broker PD BD Ver) (w : σ)
    (instanceID : String) (details : PD) (asyncAllowed : Bool) :
    (Provision env b w instanceID details asyncAllowed).ret
      = (provisionBody env b w instanceID details).ret := rfl

/-- The deferred `serialize` leaves the broker as the body left it. -/
theorem Provision_b [DecidableEq PD] (env : Env PD BD Ver σ) (b : broker PD BD Ver) (w : σ)
    (instanceID : String) (details : PD) (asyncAllowed : Bool) :
    (Provision env b w instanceID details asyncAllowed).b
      = (provisionBody env b w instanceID details).b := rfl

/-- The deferred `serialize` sends nothing to the provisioner. -/
theorem Provision_created [DecidableEq PD] (env : Env PD BD Ver σ) (b : broker PD BD Ver)
    (w : σ) (instanceID : String) (details : PD) (asyncAllowed : Bool) :
    (Provision env b w instanceID details asyncAllowed).created
      = (provisionBody env b w instanceID details).created := rfl

/-- Assigning into an initialised map gives an initialised map. -/
theorem GoMap.assign_some {V : Type} (f : String → Option V) (k : String) (v : V) :
    GoMap.assign (some f) k v = some (some (fun j => if j = k then some v else f j)) := rfl

/-- Assigning into the nil map panics. -/
theorem GoMap.assign_nil {V : Type} (k : String) (v : V) :
    GoMap.assign (none : GoMap V) k v = none := rfl

/-- What `Provision` does to the broker: either it succeeded, the map was
initialised and the request is stored under `instanceID`; or it did not
succeed and the broker is as it was. -/
theorem Provision_cases [DecidableEq PD] (env : Env PD BD Ver σ) (b : broker PD BD Ver)
    (w : σ) (instanceID : String) (details : PD) (asyncAllowed : Bool) :
    ((Provision env b w instanceID details asyncAllowed).ret.succeeded = true ∧
      ∃ f, b.dynamic.InstanceMap = some f ∧
        (Provision env b w instanceID details asyncAllowed).b =
          { b with dynamic := { b.dynamic with
              InstanceMap := some (fun j => if j = instanceID then some details else f j) } }) ∨
    ((Provision env b w instanceID details asyncAllowed).ret.succeeded = false ∧
      (Provision env b w instanceID details asyncAllowed).b = b) := by
  rw [Provision_ret, Provision_b]
  unfold provisionBody
  by_cases hc : instanceConflicts b details instanceID = true
  · right; simp [hc, Return.succeeded]
  · by_cases he : (env.Create (createRequest b instanceID) w).1.Err = ""
    · cases hm : b.dynamic.InstanceMap with
      | none => right; simp [hc, he, hm, GoMap.assign, Return.succeeded]
      | some f => left; simp [hc, he, hm, GoMap.assign, Return.succeeded]
    · right; simp [hc, he, Return.succeeded]

/-- A `Provision` that returned a nil error returned the empty spec, found the
map initialised and stored the request under `instanceID`, changing nothing
else. -/
theorem Provision_success_inv [DecidableEq PD] (env : Env PD BD Ver σ) (b : broker PD BD Ver)
    (w : σ) (instanceID : String) (details : PD) (asyncAllowed : Bool)
    (spec : ProvisionedServiceSpec)
    (hok : (Provision env b w instanceID details asyncAllowed).ret
      = Return.returned spec none) :
    spec = {} ∧ ∃ f, b.dynamic.InstanceMap = some f ∧
      (Provision env b w instanceID details asyncAllowed).b =
        { b with dynamic := { b.dynamic with
            InstanceMap := some (fun j => if j = instanceID then some details else f j) } } := by
  rw [Provision_ret] at hok
  rw [Provision_b]
  unfold provisionBody at hok ⊢
  by_cases hc : instanceConflicts b details instanceID = true
  · simp [hc] at hok
  · by_cases he : (env.Create (createRequest b instanceID) w).1.Err = ""
    · cases hm : b.dynamic.InstanceMap with
      | none => simp [hc, he, hm, GoMap.assign] at hok
      | some f =>
        simp only [hc, he, hm, GoMap.assign] at hok ⊢
        simp at hok
        exact ⟨hok.symm, f, rfl, by simp⟩
    · simp [hc, he] at hok

/-- One call changes the keys of `instances` exactly by the identifier of a
successful `Provision`, and records the call at the end of the history. -/
theorem step_instances [DecidableEq PD] (env : Env PD BD Ver σ) (r : Run PD BD Ver σ)
    (c : Call PD BD) (id : String) :
    ∃ e, (step env r c).history = r.history ++ [e] ∧
      (GoMap.hasKey (step env r c).b.dynamic.InstanceMap id = true ↔
        GoMap.hasKey r.b.dynamic.InstanceMap id = true ∨
          Event.isOk OpKind.provision id e = true) := by
  cases c with
  | provision instanceID details asyncAllowed =>
    refine ⟨_, rfl, ?_⟩
    simp only [step]
    rcases Provision_cases env r.b r.world instanceID details asyncAllowed with
      ⟨hs, f, hf, hb⟩ | ⟨hs, hb⟩
    · rw [hb, hs]
      simp only [GoMap.hasKey, GoMap.lookup, hf, Event.isOk]
      by_cases hid : id = instanceID
      · simp [hid]
      · have hid2 : ¬ instanceID = id := fun e => hid e.symm
        simp [hid, hid2]
    · rw [hb, hs]
      simp [Event.isOk]
  | deprovision instanceID asyncAllowed =>
    exact ⟨_, rfl, by simp [step, Deprovision, Event.isOk]⟩
  | bind instanceID bindingID details =>
    exact ⟨_, rfl, by simp [step, Bind, Event.isOk]⟩
  | unbind instanceID bindingID =>
    exact ⟨_, rfl, by simp [step, Unbind, Event.isOk]⟩

/-- The keys of `instances` are the identifiers with a successful `Provision`
in the history: this is kept by every sequence of calls. -/
theorem run_instances [DecidableEq PD] (env : Env PD BD Ver σ) (id : String)
    (calls : List (Call PD BD)) :
    ∀ r : Run PD BD Ver σ,
      (GoMap.hasKey r.b.dynamic.InstanceMap id = true ↔
        ∃ e ∈ r.history, Event.isOk OpKind.provision id e = true) →
      (GoMap.hasKey (run env r calls).b.dynamic.InstanceMap id = true ↔
        ∃ e ∈ (run env r calls).history, Event.isOk OpKind.provision id e = true) := by
  induction calls with
  | nil => intro r h; exact h
  | cons c cs ih =>
    intro r h
    apply ih (step env r c)
    obtain ⟨e, he, hk⟩ := step_instances env r c id
    rw [hk, he, h]
    constructor
    · rintro (⟨x, hx, hok⟩ | hok)
      · exact ⟨x, by simp [hx], hok⟩
      · exact ⟨e, by simp, hok⟩
    · rintro ⟨x, hx, hok⟩
      rcases List.mem_append.1 hx with hx | hx
      · exact Or.inl ⟨x, hx, hok⟩
      · rw [List.mem_singleton.1 hx] at hok
        exact Or.inr hok

/-- No call assigns into `bindings`. -/
theorem step_bindings [DecidableEq PD] (env : Env PD BD Ver σ) (r : Run PD BD Ver σ)
    (c : Call PD BD) :
    (step env r c).b.dynamic.BindingMap = r.b.dynamic.BindingMap := by
  cases c with
  | provision instanceID details asyncAllowed =>
    simp only [step]
    rcases Provision_cases env r.b r.world instanceID details asyncAllowed with
      ⟨_, f, _, hb⟩ | ⟨_, hb⟩
    · rw [hb]
    · rw [hb]
  | deprovision instanceID asyncAllowed => rfl
  | bind instanceID bindingID details => rfl
  | unbind instanceID bindingID => rfl

/-- No sequence of calls changes `bindings`. -/
theorem run_bindings [DecidableEq PD] (env : Env PD BD Ver σ) (calls : List (Call PD BD)) :
    ∀ r : Run PD BD Ver σ,
      (run env r calls).b.dynamic.BindingMap = r.b.dynamic.BindingMap := by
  induction calls with
  | nil => intro r; rfl
  | cons c cs ih =>
    intro r
    show (run env (step env r c) cs).b.dynamic.BindingMap = _
    rw [ih, step_bindings]

/-- What the package itself contributes to a round trip: `serialize` writes
the marshalled state to the path `restoreDynamicState` reads, and the state
parsed from the bytes read replaces the dynamic state.  Whether the state
parsed from the marshalled bytes is the state marshalled is a property of
`encoding/json` and of the request types, the hypothesis `hparse`. -/
theorem restore_after_serialize (env : Env PD BD Ver σ) (b : broker PD BD Ver)
    (S : dynamicState PD BD) (w : σ) (data : Bytes)
    (hmarshal : env.Marshal S = Except.ok data)
    (hread : ∀ path bytes perm, env.ReadFile path (env.WriteFile path bytes perm w).2
      = Except.ok bytes)
    (hparse : env.Unmarshal data dynamicState.zero = Except.ok S) :
    (restoreDynamicState env b (serialize env b S w)).dynamic = S := by
  simp [restoreDynamicState, serialize, hmarshal, hread, hparse]

/-- On a broker whose `instances` map is initialised and a provisioner that
never reports an error: `Provision` of an identifier that is not a key
succeeds; the same call again succeeds and leaves the broker as the first
call left it; and a call with a different request returns
`ErrInstanceAlreadyExists`. -/
theorem Provision_idempotent_of_initialised [DecidableEq PD] (env : Env PD BD Ver σ)
    (b : broker PD BD Ver) (w w₂ w₃ : σ) (instanceID : String) (R R' : PD)
    (async₁ async₂ async₃ : Bool) (f : String → Option PD)
    (hmap : b.dynamic.InstanceMap = some f) (hnew : f instanceID = none)
    (hcreate : ∀ req world, (env.Create req world).1.Err = "") (hne : R' ≠ R) :
    (Provision env b w instanceID R async₁).ret = Return.returned {} none ∧
    (Provision env (Provision env b w instanceID R async₁).b w₂ instanceID R async₂).ret
      = Return.returned {} none ∧
    (Provision env (Provision env b w instanceID R async₁).b w₂ instanceID R async₂).b
      = (Provision env b w instanceID R async₁).b ∧
    (Provision env (Provision env b w instanceID R async₁).b w₃ instanceID R' async₃).ret
      = Return.returned {} (some GoError.ErrInstanceAlreadyExists) := by
  have h1 : (Provision env b w instanceID R async₁).ret = Return.returned {} none := by
    simp [Provision, provisionBody, instanceConflicts, GoMap.lookup, GoMap.assign, hmap,
      hnew, hcreate]
  have hb : (Provision env b w instanceID R async₁).b =
      { b with dynamic := { b.dynamic with
          InstanceMap := some (fun j => if j = instanceID then some R else f j) } } := by
    simp [Provision, provisionBody, instanceConflicts, GoMap.lookup, GoMap.assign, hmap,
      hnew, hcreate]
  have hne2 : ¬ R = R' := fun e => hne e.symm
  refine ⟨h1, ?_, ?_, ?_⟩
  · rw [hb]
    simp [Provision, provisionBody, instanceConflicts, GoMap.lookup, GoMap.assign, hcreate]
  · rw [hb]
    simp only [Provision, provisionBody, instanceConflicts, GoMap.lookup, GoMap.assign,
      hcreate]
    simp
    funext j
    by_cases hj : j = instanceID <;> simp [hj]
  · rw [hb]
    simp [Provision, provisionBody, instanceConflicts, GoMap.lookup, hne]

end Lemmas

/-! ## The claims -/

section Claims

variable {PD BD Ver σ : Type}

/-- C1: when `instanceID` is a key of `instances` and the stored request is
not deeply equal to the request, `Provision` returns
`ErrInstanceAlreadyExists`, sends nothing to the provisioner and leaves the
broker, `instances` included, as it was. -/
theorem Provision_conflict_rejected [DecidableEq PD] (env : Env PD BD Ver σ)
    (b : broker PD BD Ver) (w : σ) (instanceID : String) (details existing : PD)
    (asyncAllowed : Bool)
    (hkey : GoMap.lookup b.dynamic.InstanceMap instanceID = some existing)
    (hne : existing ≠ details) :
    (Provision env b w instanceID details asyncAllowed).ret
        = Return.returned {} (some GoError.ErrInstanceAlreadyExists) ∧
      (Provision env b w instanceID details asyncAllowed).created = [] ∧
      (Provision env b w instanceID details asyncAllowed).b.dynamic.InstanceMap
        = b.dynamic.InstanceMap ∧
      (Provision env b w instanceID details asyncAllowed).b = b := by
  have hc : instanceConflicts b details instanceID = true :=
    (instanceConflicts_iff b details instanceID).2 ⟨existing, hkey, hne⟩
  simp [Provision, provisionBody, hc]

/-- Witness of C1: `vol-1` is provisioned with `oneGig` and requested with
`twoGig`. -/
theorem Provision_conflict_rejected_witness :
    (Provision okEnv (sampleBroker oneInstance) [] "vol-1" twoGig false).ret
        = Return.returned {} (some GoError.ErrInstanceAlreadyExists) ∧
      (Provision okEnv (sampleBroker oneInstance) [] "vol-1" twoGig false).created = [] ∧
      (Provision okEnv (sampleBroker oneInstance) [] "vol-1" twoGig false).b.dynamic.InstanceMap
        = (sampleBroker oneInstance).dynamic.InstanceMap ∧
      (Provision okEnv (sampleBroker oneInstance) [] "vol-1" twoGig false).b
        = sampleBroker oneInstance :=
  Provision_conflict_rejected okEnv (sampleBroker oneInstance) [] "vol-1" twoGig oneGig false
    (by simp [sampleBroker, oneInstance, GoMap.lookup]) (by decide)

/-- C2: when the conflict check passes and the provisioner answers a
non-empty error message `m`, `Provision` returns the error `errors.New(m)`,
whose message is `m`, and the broker, `instances` included, is as it was: no
key is added, removed or altered. -/
theorem Provision_create_failure [DecidableEq PD] (env : Env PD BD Ver σ)
    (b : broker PD BD Ver) (w : σ) (instanceID : String) (details : PD)
    (asyncAllowed : Bool) (m : String)
    (hpass : instanceConflicts b details instanceID = false)
    (hresp : (env.Create (createRequest b instanceID) w).1.Err = m)
    (hm : m ≠ "") :
    (Provision env b w instanceID details asyncAllowed).ret
        = Return.returned {} (some (errorsNew m)) ∧
      (errorsNew m).Error = m ∧
      (Provision env b w instanceID details asyncAllowed).b.dynamic.InstanceMap
        = b.dynamic.InstanceMap ∧
      (Provision env b w instanceID details asyncAllowed).b = b := by
  subst hresp
  simp [Provision, provisionBody, hpass, hm, errorsNew, GoError.Error]

/-- Witness of C2: the provisioner answers `no space left`. -/
theorem Provision_create_failure_witness :
    (Provision (fakeEnv "no space left" (Except.ok emptyObjectDoc) none unmarshalEmptyDocs)
        (sampleBroker oneInstance) [] "vol-2" twoGig false).ret
        = Return.returned {} (some (errorsNew "no space left")) ∧
      (errorsNew "no space left").Error = "no space left" ∧
      (Provision (fakeEnv "no space left" (Except.ok emptyObjectDoc) none unmarshalEmptyDocs)
        (sampleBroker oneInstance) [] "vol-2" twoGig false).b.dynamic.InstanceMap
        = (sampleBroker oneInstance).dynamic.InstanceMap ∧
      (Provision (fakeEnv "no space left" (Except.ok emptyObjectDoc) none unmarshalEmptyDocs)
        (sampleBroker oneInstance) [] "vol-2" twoGig false).b = sampleBroker oneInstance :=
  Provision_create_failure
    (fakeEnv "no space left" (Except.ok emptyObjectDoc) none unmarshalEmptyDocs)
    (sampleBroker oneInstance) [] "vol-2" twoGig false "no space left"
    (by simp [instanceConflicts, sampleBroker, oneInstance, GoMap.lookup])
    rfl (by decide)

/-- C4: when `Provision` succeeds it returns the empty
`ProvisionedServiceSpec`; afterwards `instances` maps `instanceID` to the
request, every other key has the entry (or the absence of an entry) it had
before, and `bindings`, the static configuration, the data directory and the
version are as before. -/
theorem Provision_success_frame [DecidableEq PD] (env : Env PD BD Ver σ)
    (b : broker PD BD Ver) (w : σ) (instanceID : String) (details : PD)
    (asyncAllowed : Bool) (spec : ProvisionedServiceSpec)
    (hok : (Provision env b w instanceID details asyncAllowed).ret
      = Return.returned spec none) :
    spec = {} ∧
      GoMap.lookup (Provision env b w instanceID details asyncAllowed).b.dynamic.InstanceMap
        instanceID = some details ∧
      (∀ k, k ≠ instanceID →
        GoMap.lookup (Provision env b w instanceID details asyncAllowed).b.dynamic.InstanceMap k
          = GoMap.lookup b.dynamic.InstanceMap k) ∧
      (Provision env b w instanceID details asyncAllowed).b.dynamic.BindingMap
        = b.dynamic.BindingMap ∧
      (Provision env b w instanceID details asyncAllowed).b.static = b.static ∧
      (Provision env b w instanceID details asyncAllowed).b.dataDir = b.dataDir ∧
      (Provision env b w instanceID details asyncAllowed).b.specVersion = b.specVersion := by
  obtain ⟨hspec, f, hf, hb⟩ :=
    Provision_success_inv env b w instanceID details asyncAllowed spec hok
  rw [hb]
  refine ⟨hspec, ?_, ?_, rfl, rfl, rfl, rfl⟩
  · simp [GoMap.lookup]
  · intro k hk
    simp [GoMap.lookup, hf, hk]

/-- Witness of C4: `vol-2` is provisioned next to `vol-1`. -/
theorem Provision_success_frame_witness :
    ({} : ProvisionedServiceSpec) = {} ∧
      GoMap.lookup (Provision okEnv (sampleBroker oneInstance) [] "vol-2" twoGig
        false).b.dynamic.InstanceMap "vol-2" = some twoGig ∧
      (∀ k, k ≠ "vol-2" →
        GoMap.lookup (Provision okEnv (sampleBroker oneInstance) [] "vol-2" twoGig
          false).b.dynamic.InstanceMap k
          = GoMap.lookup (sampleBroker oneInstance).dynamic.InstanceMap k) ∧
      (Provision okEnv (sampleBroker oneInstance) [] "vol-2" twoGig false).b.dynamic.BindingMap
        = (sampleBroker oneInstance).dynamic.BindingMap ∧
      (Provision okEnv (sampleBroker oneInstance) [] "vol-2" twoGig false).b.static
        = (sampleBroker oneInstance).static ∧
      (Provision okEnv (sampleBroker oneInstance) [] "vol-2" twoGig false).b.dataDir
        = (sampleBroker oneInstance).dataDir ∧
      (Provision okEnv (sampleBroker oneInstance) [] "vol-2" twoGig false).b.specVersion
        = (sampleBroker oneInstance).specVersion :=
  Provision_success_frame okEnv (sampleBroker oneInstance) [] "vol-2" twoGig false {}
    (by simp [Provision, provisionBody, instanceConflicts, sampleBroker, oneInstance,
          GoMap.lookup, GoMap.assign, okEnv, fakeEnv, createRequest])

/-- C8: two runs of `Provision` on the same broker, world, arguments and
provisioner, whatever `json.Marshal` and `ioutil.WriteFile` do in the one and
in the other, return the same thing, leave the same broker and send the same
requests to the provisioner; and a run that returns success has `instanceID`
registered with the request, whatever became of the write. -/
theorem Provision_persistence_swallowed [DecidableEq PD] (env : Env PD BD Ver σ)
    (marshal₁ marshal₂ : dynamicState PD BD → Except GoError Bytes)
    (write₁ write₂ : String → Bytes → Nat → σ → Option GoError × σ)
    (b : broker PD BD Ver) (w : σ) (instanceID : String) (details : PD)
    (asyncAllowed : Bool) :
    (Provision { env with Marshal := marshal₁, WriteFile := write₁ } b w instanceID details
        asyncAllowed).ret
      = (Provision { env with Marshal := marshal₂, WriteFile := write₂ } b w instanceID details
        asyncAllowed).ret ∧
    (Provision { env with Marshal := marshal₁, WriteFile := write₁ } b w instanceID details
        asyncAllowed).b
      = (Provision { env with Marshal := marshal₂, WriteFile := write₂ } b w instanceID details
        asyncAllowed).b ∧
    (Provision { env with Marshal := marshal₁, WriteFile := write₁ } b w instanceID details
        asyncAllowed).created
      = (Provision { env with Marshal := marshal₂, WriteFile := write₂ } b w instanceID details
        asyncAllowed).created ∧
    (∀ spec, (Provision { env with Marshal := marshal₁, WriteFile := write₁ } b w instanceID
        details asyncAllowed).ret = Return.returned spec none →
      GoMap.lookup (Provision { env with Marshal := marshal₁, WriteFile := write₁ } b w
        instanceID details asyncAllowed).b.dynamic.InstanceMap instanceID = some details) := by
  refine ⟨rfl, rfl, rfl, ?_⟩
  intro spec hok
  obtain ⟨_, f, _, hb⟩ := Provision_success_inv _ b w instanceID details asyncAllowed spec hok
  rw [hb]
  simp [GoMap.lookup]

/-- Witness of C8: the write of the state file fails in the first run and
works in the second; `vol-2` is registered in the first all the same. -/
theorem Provision_persistence_swallowed_witness :
    (Provision (fakeEnv "" (Except.ok emptyObjectDoc) (some (GoError.errorString "read-only"))
        unmarshalEmptyDocs) (sampleBroker oneInstance) [] "vol-2" twoGig false).ret
      = (Provision okEnv (sampleBroker oneInstance) [] "vol-2" twoGig false).ret ∧
    (Provision (fakeEnv "" (Except.ok emptyObjectDoc) (some (GoError.errorString "read-only"))
        unmarshalEmptyDocs) (sampleBroker oneInstance) [] "vol-2" twoGig false).ret
      = Return.returned {} none ∧
    GoMap.lookup (Provision (fakeEnv "" (Except.ok emptyObjectDoc)
        (some (GoError.errorString "read-only")) unmarshalEmptyDocs)
        (sampleBroker oneInstance) [] "vol-2" twoGig false).b.dynamic.InstanceMap "vol-2"
      = some twoGig :=
  have h := Provision_persistence_swallowed okEnv
    (fakeEnv "" (Except.ok emptyObjectDoc) (some (GoError.errorString "read-only"))
      unmarshalEmptyDocs).Marshal okEnv.Marshal
    (fakeEnv "" (Except.ok emptyObjectDoc) (some (GoError.errorString "read-only"))
      unmarshalEmptyDocs).WriteFile okEnv.WriteFile
    (sampleBroker oneInstance) [] "vol-2" twoGig false
  have hok : (Provision (fakeEnv "" (Except.ok emptyObjectDoc)
      (some (GoError.errorString "read-only")) unmarshalEmptyDocs)
      (sampleBroker oneInstance) [] "vol-2" twoGig false).ret = Return.returned {} none := by
    simp [Provision, provisionBody, instanceConflicts, sampleBroker, oneInstance,
      GoMap.lookup, GoMap.assign, fakeEnv, createRequest]
  ⟨h.1, hok, h.2.2.2 {} hok⟩

/-- C9: with `path` the state file of the broker under construction: when
reading it fails, or the bytes read fail to parse, `New` returns a broker whose
dynamic state is the literal of `New`, two initialised maps without any key;
when both succeed, the dynamic state is the state parsed into a zero-valued
variable, which holds nothing of the literal. -/
theorem New_restores_or_stays_empty (env : Env PD BD Ver σ) (w : σ)
    (serviceName serviceId planName planId planDesc dataDir : String) (version : Ver) :
    (∀ e, env.ReadFile (env.Join dataDir (serviceName ++ "-services.json")) w = Except.error e →
      (New env w serviceName serviceId planName planId planDesc dataDir version).dynamic
        = dynamicState.fresh) ∧
    (∀ data e, env.ReadFile (env.Join dataDir (serviceName ++ "-services.json")) w
        = Except.ok data →
      env.Unmarshal data dynamicState.zero = Except.error e →
      (New env w serviceName serviceId planName planId planDesc dataDir version).dynamic
        = dynamicState.fresh) ∧
    (∀ data parsed, env.ReadFile (env.Join dataDir (serviceName ++ "-services.json")) w
        = Except.ok data →
      env.Unmarshal data dynamicState.zero = Except.ok parsed →
      (New env w serviceName serviceId planName planId planDesc dataDir version).dynamic
        = parsed) ∧
    (∀ k, GoMap.lookup (dynamicState.fresh : dynamicState PD BD).InstanceMap k = none ∧
      GoMap.lookup (dynamicState.fresh : dynamicState PD BD).BindingMap k = none) := by
  refine ⟨?_, ?_, ?_, ?_⟩
  · intro e hr
    simp [New, restoreDynamicState, stateFile, hr, dynamicState.fresh]
  · intro data e hr hu
    simp [New, restoreDynamicState, stateFile, hr, hu, dynamicState.fresh]
  · intro data parsed hr hu
    simp [New, restoreDynamicState, stateFile, hr, hu]
  · intro k
    simp [dynamicState.fresh, GoMap.make, GoMap.lookup]

/-- Witness of C9: no state file; a state file that does not parse; a state
file that parses. -/
theorem New_restores_or_stays_empty_witness :
    (New okEnv [] "csi" "sid" "free" "pid" "a plan" "/data" 1).dynamic = dynamicState.fresh ∧
    (New okEnv [("/data/csi-services.json", [0x31])] "csi" "sid" "free" "pid" "a plan"
      "/data" 1).dynamic = dynamicState.fresh ∧
    (New (fakeEnv "" (Except.ok emptyObjectDoc) none (fun _ _ => Except.ok oneInstance))
      [("/data/csi-services.json", [0x31])] "csi" "sid" "free" "pid" "a plan"
      "/data" 1).dynamic = oneInstance :=
  ⟨(New_restores_or_stays_empty okEnv [] "csi" "sid" "free" "pid" "a plan" "/data" 1).1
      (GoError.errorString "no such file or directory") rfl,
   (New_restores_or_stays_empty okEnv [("/data/csi-services.json", [0x31])]
      "csi" "sid" "free" "pid" "a plan" "/data" 1).2.1 [0x31]
      (GoError.errorString "unexpected end of JSON input") (by rfl) (by rfl),
   (New_restores_or_stays_empty
      (fakeEnv "" (Except.ok emptyObjectDoc) none (fun _ _ => Except.ok oneInstance))
      [("/data/csi-services.json", [0x31])] "csi" "sid" "free" "pid" "a plan" "/data" 1).2.2.1
      [0x31] oneInstance (by rfl) rfl⟩

/-- C10: a state file that holds an object without members, or `null`,
parses without error and sets no field of the zero-valued variable; `New`
then returns a broker whose `instances` and `bindings` are both nil maps, and
an assignment into its `instances` is the assignment into a nil map. -/
theorem New_restores_nil_maps :
    (New okEnv [("/data/csi-services.json", emptyObjectDoc)] "csi" "sid" "free" "pid"
      "a plan" "/data" 1).dynamic.InstanceMap = none ∧
    (New okEnv [("/data/csi-services.json", emptyObjectDoc)] "csi" "sid" "free" "pid"
      "a plan" "/data" 1).dynamic.BindingMap = none ∧
    (New okEnv [("/data/csi-services.json", nullDoc)] "csi" "sid" "free" "pid"
      "a plan" "/data" 1).dynamic.InstanceMap = none ∧
    (New okEnv [("/data/csi-services.json", nullDoc)] "csi" "sid" "free" "pid"
      "a plan" "/data" 1).dynamic.BindingMap = none ∧
    GoMap.assign (New okEnv [("/data/csi-services.json", emptyObjectDoc)] "csi" "sid" "free"
      "pid" "a plan" "/data" 1).dynamic.InstanceMap "vol-1" oneGig = none :=
  ⟨rfl, rfl, rfl, rfl, rfl⟩

/-- C3: on the broker `New` returns for a state file holding an object
without members, `vol-1` is not a key of `instances` and the provisioner
reports no error, yet `Provision` of `vol-1` does not succeed: it panics on
the assignment into the nil map, and `vol-1` is not registered. -/
theorem Provision_after_restore_panics :
    GoMap.hasKey (New okEnv [("/data/csi-services.json", emptyObjectDoc)] "csi" "sid" "free"
      "pid" "a plan" "/data" 1).dynamic.InstanceMap "vol-1" = false ∧
    (okEnv.Create (createRequest (New okEnv [("/data/csi-services.json", emptyObjectDoc)]
      "csi" "sid" "free" "pid" "a plan" "/data" 1) "vol-1")
      [("/data/csi-services.json", emptyObjectDoc)]).1.Err = "" ∧
    (Provision okEnv (New okEnv [("/data/csi-services.json", emptyObjectDoc)] "csi" "sid"
      "free" "pid" "a plan" "/data" 1) [("/data/csi-services.json", emptyObjectDoc)]
      "vol-1" oneGig false).ret = Return.panicked "assignment to entry in nil map" ∧
    GoMap.hasKey (Provision okEnv (New okEnv [("/data/csi-services.json", emptyObjectDoc)]
      "csi" "sid" "free" "pid" "a plan" "/data" 1)
      [("/data/csi-services.json", emptyObjectDoc)]
      "vol-1" oneGig false).b.dynamic.InstanceMap "vol-1" = false :=
  ⟨rfl, rfl, rfl, rfl⟩

/-- C6, as stated, fails: after a successful `Provision` of `vol-1` and a
successful `Deprovision` of `vol-1`, `vol-1` is still a key of `instances`,
while a successful `Deprovision` followed its only `Provision`. -/
theorem instances_keep_deprovisioned :
    ¬ (GoMap.hasKey (run okEnv (start (sampleBroker dynamicState.fresh) [])
          [Call.provision "vol-1" oneGig false,
           Call.deprovision "vol-1" false]).b.dynamic.InstanceMap "vol-1" = true ↔
        instanceLive "vol-1" (run okEnv (start (sampleBroker dynamicState.fresh) [])
          [Call.provision "vol-1" oneGig false,
           Call.deprovision "vol-1" false]).history = true) := by
  have hkey : GoMap.hasKey (run okEnv (start (sampleBroker dynamicState.fresh) [])
      [Call.provision "vol-1" oneGig false,
       Call.deprovision "vol-1" false]).b.dynamic.InstanceMap "vol-1" = true := rfl
  have hlive : instanceLive "vol-1" (run okEnv (start (sampleBroker dynamicState.fresh) [])
      [Call.provision "vol-1" oneGig false,
       Call.deprovision "vol-1" false]).history = false := rfl
  rw [hkey, hlive]
  simp

/-- C6, amended: starting from a broker with the empty dynamic state of
`New`, after every finite sequence of calls an identifier is a key of
`instances` if and only if some successful `Provision` for it is in the
history. -/
theorem instances_key_iff_provisioned [DecidableEq PD] (env : Env PD BD Ver σ)
    (b : broker PD BD Ver) (w : σ) (calls : List (Call PD BD)) (id : String)
    (hfresh : b.dynamic = dynamicState.fresh) :
    GoMap.hasKey (run env (start b w) calls).b.dynamic.InstanceMap id = true ↔
      ∃ e ∈ (run env (start b w) calls).history, Event.isOk OpKind.provision id e = true := by
  apply run_instances env id calls (start b w)
  simp [start, hfresh, dynamicState.fresh, GoMap.make, GoMap.hasKey, GoMap.lookup]

/-- Witness of C6, amended: `vol-1` provisioned, deprovisioned, and a
conflicting `Provision` refused. -/
theorem instances_key_iff_provisioned_witness :
    GoMap.hasKey (run okEnv (start (sampleBroker dynamicState.fresh) [])
        [Call.provision "vol-1" oneGig false, Call.deprovision "vol-1" false,
         Call.provision "vol-1" twoGig false]).b.dynamic.InstanceMap "vol-1" = true ↔
      ∃ e ∈ (run okEnv (start (sampleBroker dynamicState.fresh) [])
        [Call.provision "vol-1" oneGig false, Call.deprovision "vol-1" false,
         Call.provision "vol-1" twoGig false]).history,
        Event.isOk OpKind.provision "vol-1" e = true :=
  instances_key_iff_provisioned okEnv (sampleBroker dynamicState.fresh) []
    [Call.provision "vol-1" oneGig false, Call.deprovision "vol-1" false,
     Call.provision "vol-1" twoGig false] "vol-1" rfl

/-- C7, as stated, fails: after a successful `Bind` of `bind-1`, with no
`Unbind` after it, `bind-1` is not a key of `bindings`. -/
theorem bindings_miss_bound :
    ¬ (GoMap.hasKey (run okEnv (start (sampleBroker dynamicState.fresh) [])
          [Call.provision "vol-1" oneGig false,
           Call.bind "vol-1" "bind-1" twoGig]).b.dynamic.BindingMap "bind-1" = true ↔
        bindingLive "bind-1" (run okEnv (start (sampleBroker dynamicState.fresh) [])
          [Call.provision "vol-1" oneGig false,
           Call.bind "vol-1" "bind-1" twoGig]).history = true) := by
  have hkey : GoMap.hasKey (run okEnv (start (sampleBroker dynamicState.fresh) [])
      [Call.provision "vol-1" oneGig false,
       Call.bind "vol-1" "bind-1" twoGig]).b.dynamic.BindingMap "bind-1" = false := rfl
  have hlive : bindingLive "bind-1" (run okEnv (start (sampleBroker dynamicState.fresh) [])
      [Call.provision "vol-1" oneGig false,
       Call.bind "vol-1" "bind-1" twoGig]).history = true := rfl
  rw [hkey, hlive]
  simp

/-- C7, amended: starting from a broker with the empty dynamic state of
`New`, after every finite sequence of calls `bindings` is still the empty
map: no identifier is a key of it, whatever calls of `Bind` succeeded. -/
theorem bindings_stay_empty [DecidableEq PD] (env : Env PD BD Ver σ)
    (b : broker PD BD Ver) (w : σ) (calls : List (Call PD BD)) (id : String)
    (hfresh : b.dynamic = dynamicState.fresh) :
    (run env (start b w) calls).b.dynamic.BindingMap = GoMap.make ∧
      GoMap.hasKey (run env (start b w) calls).b.dynamic.BindingMap id = false := by
  rw [run_bindings]
  simp [start, hfresh, dynamicState.fresh, GoMap.make, GoMap.hasKey, GoMap.lookup]

/-- Witness of C7, amended: `bind-1` bound on `vol-1`. -/
theorem bindings_stay_empty_witness :
    (run okEnv (start (sampleBroker dynamicState.fresh) [])
      [Call.provision "vol-1" oneGig false,
       Call.bind "vol-1" "bind-1" twoGig]).b.dynamic.BindingMap = GoMap.make ∧
      GoMap.hasKey (run okEnv (start (sampleBroker dynamicState.fresh) [])
        [Call.provision "vol-1" oneGig false,
         Call.bind "vol-1" "bind-1" twoGig]).b.dynamic.BindingMap "bind-1" = false :=
  bindings_stay_empty okEnv (sampleBroker dynamicState.fresh) []
    [Call.provision "vol-1" oneGig false, Call.bind "vol-1" "bind-1" twoGig] "bind-1" rfl

end Claims

end CsiBroker
